import Mathlib

/-!
Verification of the PDF Generator API (Flask application `app.py`) against its
natural-language specification.  The Python source is shallowly embedded:
pure logic (validation, string formatting) becomes Lean functions; effects
(HTTP request data, the external completions API, the optional pdfkit import,
the filesystem, the clock) become explicit parameters and explicit state.
-/

namespace PdfApp

/-- JSON values as they appear in the service's request/response bodies.
Only strings, booleans and integers occur in the bodies the claims are about. -/
inductive Json where
  | str (s : String)
  | bool (b : Bool)
  | num (n : Int)
  deriving DecidableEq, Repr

/-- A Flask `jsonify(dict), status` result: an association list of JSON fields
plus an HTTP status code (Flask's default status is 200). -/
structure HttpResult where
  body : List (String × Json)
  status : Nat
  deriving DecidableEq, Repr

/-- Look a key up in a JSON object body (association-list semantics of a
Python dict built from distinct literal keys). -/
def body_get (b : List (String × Json)) (k : String) : Option Json :=
  (b.find? (fun e => e.1 = k)).map (fun e => e.2)

/-- The transient request record parsed from the POST body
(`request.get_json()`), with one optional field per key the handler reads.
`none` models an absent key.  A present `title` is modelled as a string
(Python truthiness of a string is non-emptiness, which `validate_request`
relies on); `pageCount` as an integer. -/
structure ReqData where
  title : Option String := none
  description : Option String := none
  template : Option String := none
  points : Option (List String) := none
  author : Option String := none
  language : Option String := none
  useAI : Option Bool := none
  coverStyle : Option String := none
  primaryColor : Option String := none
  pageCount : Option Int := none
  deriving Repr

/-- Function `validate_request(data)` from app.py lines 61-75: the required set is
`['title']`; a missing or falsy (empty) title is rejected first, then a title
shorter than 3 characters, then a `pageCount` (defaulting to 18) outside
`[5, 50]`. -/
def validate_request (data : ReqData) : Bool × String :=
  match data.title with
  | none => (false, "Missing required field: title")
  | some t =>
    if t = "" then (false, "Missing required field: title")
    else if t.length < 3 then (false, "Title must be at least 3 characters")
    else
      let page_count := data.pageCount.getD 18
      if page_count < 5 ∨ page_count > 50 then
        (false, "Page count must be between 5 and 50")
      else
        (true, "Valid")

/-- Outcome of the external `openai_client.chat.completions.create` call:
either it returns content, or it raises an exception with a message. -/
inductive ApiOutcome where
  | ok (content : String)
  | raised (err : String)
  deriving Repr

/-- Function `generate_content_with_ai(title, template, points, language)` from
app.py lines 81-162.  The external call's outcome is an explicit parameter;
`api_key` is the module-level `API_KEY` ("demo" when unconfigured).
The prompt string itself does not influence the returned value and is not
modelled.  On the demo path the function returns canned content; on an API
exception it returns the fallback `<h2>Content</h2>` plus one
`<h3>`/`<p>` pair per key point, joined by newlines. -/
def generate_content_with_ai (api_key : String) (title : String)
    (template : String) (points : List String) (language : String)
    (outcome : ApiOutcome) : String :=
  if api_key = "demo" then
    "<h2>Introduction</h2><p>This is a demo document about " ++ title ++
      ".</p>" ++
      String.intercalate "\n" (points.map (fun p =>
        "<h3>Point: " ++ p ++ "</h3><p>Detailed explanation of " ++ p ++
          "...</p>"))
  else
    match outcome with
    | ApiOutcome.ok content => content
    | ApiOutcome.raised _ =>
        "<h2>Content</h2>" ++
          String.intercalate "\n" (points.map (fun p =>
            "<h3>" ++ p ++ "</h3><p>Detailed content about " ++ p ++
              "...</p>"))

/-- Status of the optional `import pdfkit` inside
`convert_html_to_pdf_simple`: the import fails (`ImportError`), the call
succeeds, or the call raises some other exception. -/
inductive PdfkitStatus where
  | unavailable
  | ok
  | failed (err : String)
  deriving DecidableEq, Repr

/-- Contents of a file on disk: text written by the app's own
`open(...).write(...)` calls, or the opaque binary output pdfkit produced
from a given HTML source. -/
inductive FileData where
  | text (s : String)
  | binary (src : String)
  deriving DecidableEq, Repr

/-- The filesystem, as a partial map from path to file contents. -/
def FS : Type := String → Option FileData

/-- Writing a file: `open(path, 'w')` followed by `write` replaces any
existing contents at `path`. -/
def fs_write (fs : FS) (path : String) (data : FileData) : FS :=
  fun q => if q = path then some data else fs q

/-- Apply a sequence of writes in order. -/
def fs_write_all (fs : FS) (writes : List (String × FileData)) : FS :=
  writes.foldl (fun acc w => fs_write acc w.1 w.2) fs

/-- Constant `UPLOAD_DIR = Path('generated_pdfs')` from app.py line 33. -/
def UPLOAD_DIR : String := "generated_pdfs"

/-- The marker file contents written by the fallback branch of
`convert_html_to_pdf_simple` (app.py line 364). -/
def pdf_marker (output_path html_path : String) : String :=
  "PDF_EXPORT\n" ++ output_path ++ "\nHTML_SOURCE: " ++ html_path

/-- Result of `convert_html_to_pdf_simple`: the file writes it performed, in
order, and its boolean return value. -/
structure ConvertResult where
  writes : List (String × FileData)
  ret : Bool
  deriving DecidableEq, Repr

/-- Function `convert_html_to_pdf_simple(html_content, output_path)` from app.py
lines 340-370.  If pdfkit imports and succeeds, it writes pdfkit's binary
output to `output_path` and returns True.  If the import fails or pdfkit
raises, the fallback writes the HTML to `output_path` with `.pdf` replaced
by `.html`, writes a `PDF_EXPORT` marker to `output_path`, and returns True.
`io_raises` models the outer `except Exception` (an OS error during the
writes), which makes the function return False. -/
def convert_html_to_pdf_simple (html_content output_path : String)
    (pdfkit : PdfkitStatus) (io_raises : Bool) : ConvertResult :=
  if io_raises then { writes := [], ret := false }
  else
    match pdfkit with
    | PdfkitStatus.ok =>
        { writes := [(output_path, FileData.binary html_content)],
          ret := true }
    | _ =>
        let html_path := output_path.replace ".pdf" ".html"
        { writes :=
            [(html_path, FileData.text html_content),
             (output_path,
              FileData.text (pdf_marker output_path html_path))],
          ret := true }

/-- Size `st_size` of a file.  The size of pdfkit's opaque binary output is not
observable from the source; it is modelled by the source's size.  No claim
depends on a size value. -/
def file_data_size : FileData → Nat
  | FileData.text s => s.utf8ByteSize
  | FileData.binary src => src.utf8ByteSize

/-- The dict returned by `generate_pdf` on success. -/
structure PdfInfo where
  filename : String
  filepath : String
  size : Nat
  deriving DecidableEq, Repr

/-- Result of `generate_pdf`: the filesystem after its writes, and the info
dict (`none` models the `except` branch returning None). -/
structure GenOutcome where
  fs : FS
  info : Option PdfInfo

/-- Function `generate_pdf(title, description, content, author, ...)` from app.py
lines 373-406, with the clock explicit: `ts = int(time.time())` is the
current whole-second Unix timestamp.  The HTML document text produced by
`generate_html_document` is taken as the `html_content` input (no claim
inspects that text).  The filename is `document-<ts>.pdf`; the only
statement in the `try` block that can raise is the `stat` call after the
conversion, modelled by `gen_raises`. -/
def generate_pdf (ts : Nat) (html_content : String)
    (pdfkit : PdfkitStatus) (io_raises gen_raises : Bool) (fs : FS) :
    GenOutcome :=
  let filename := "document-" ++ toString ts ++ ".pdf"
  let filepath := UPLOAD_DIR ++ "/" ++ filename
  let conv := convert_html_to_pdf_simple html_content filepath pdfkit io_raises
  let fs2 := fs_write_all fs conv.writes
  if gen_raises then { fs := fs2, info := none }
  else
    let file_size := match fs2 filepath with
      | some d => file_data_size d
      | none => 0
    { fs := fs2,
      info := some { filename := filename, filepath := filepath,
                     size := file_size } }

/-- Result of the route handler: the filesystem after the request plus the
HTTP response. -/
structure ApiResult where
  fs : FS
  resp : HttpResult

/-- Route handler `api_generate_pdf()` from app.py lines 438-512, for a request whose body
parsed as JSON.  Effects are explicit parameters: `ts` the clock,
`api_key` the configured key, `outcome` the external API call's outcome,
`pdfkit`/`io_raises`/`gen_raises` the conversion and stat effects,
`render` abstracts `generate_html_document` (pure string templating that no
claim inspects), `total_time` the elapsed seconds.  Invalid requests get a
400 before any generation; a None from `generate_pdf` gets a 500; otherwise
a 200 with success metadata and the download URL. -/
def api_generate_pdf (data : ReqData) (ts : Nat) (api_key : String)
    (outcome : ApiOutcome) (pdfkit : PdfkitStatus)
    (io_raises gen_raises : Bool) (render : ReqData → String → String)
    (total_time : Nat) (fs : FS) : ApiResult :=
  let v := validate_request data
  if v.1 = false then
    { fs := fs, resp := { body := [("error", Json.str v.2)], status := 400 } }
  else
    let title := data.title.getD "Untitled"
    let template := data.template.getD "tech-report"
    let points := data.points.getD []
    let language := data.language.getD "fr"
    let use_ai := data.useAI.getD false
    let content :=
      if use_ai then
        generate_content_with_ai api_key title template points language
          outcome
      else
        "<h2>Points Clés</h2>" ++
          String.intercalate "\n" (points.map (fun p =>
            "<h3>" ++ p ++ "</h3><p>Contenu détaillé sur " ++ p ++
              "...</p>"))
    let g := generate_pdf ts (render data content) pdfkit io_raises
      gen_raises fs
    match g.info with
    | none =>
        { fs := g.fs,
          resp := { body := [("error", Json.str "PDF generation failed")],
                    status := 500 } }
    | some info =>
        { fs := g.fs,
          resp := { body :=
              [("success", Json.bool true),
               ("message", Json.str "PDF generated successfully"),
               ("filename", Json.str info.filename),
               ("downloadUrl", Json.str ("/download/" ++ info.filename)),
               ("size", Json.num (Int.ofNat info.size)),
               ("generationTime", Json.num (Int.ofNat total_time))],
                    status := 200 } }

/-- Python's substring test `needle in hay`, on character lists. -/
def contains_sub (needle : List Char) : List Char → Bool
  | [] => needle.isEmpty
  | c :: t => needle.isPrefixOf (c :: t) || contains_sub needle t

/-- Python's substring test `needle in hay` on strings. -/
def py_in (needle hay : String) : Bool :=
  contains_sub needle.toList hay.toList

/-- Does `s` begin with `pre` (on the underlying character lists)? -/
def str_starts (s pre : String) : Bool :=
  pre.toList.isPrefixOf s.toList

/-- Result of the download route: a JSON response, or `send_file` of the
file named `name` directly inside directory `dir`. -/
inductive DownloadResult where
  | json (r : HttpResult)
  | file (dir name : String)
  deriving DecidableEq, Repr

/-- Route handler `download_pdf(filename)` from app.py lines 515-539.  The traversal check
rejects any filename containing `..`, `/` or `\` with a 400 before touching
the filesystem; a missing file gets a 404; otherwise `send_file` serves
`UPLOAD_DIR / filename` (`send_err` models a `send_file` exception, which
is answered with a 500). -/
def download_pdf (filename : String) (fs : FS)
    (send_err : Option String) : DownloadResult :=
  if py_in ".." filename || py_in "/" filename || py_in "\\" filename then
    DownloadResult.json
      { body := [("error", Json.str "Invalid filename")], status := 400 }
  else
    if (fs (UPLOAD_DIR ++ "/" ++ filename)).isNone then
      DownloadResult.json
        { body := [("error", Json.str "File not found")], status := 404 }
    else
      match send_err with
      | some e =>
          DownloadResult.json
            { body := [("error", Json.str e)], status := 500 }
      | none => DownloadResult.file UPLOAD_DIR filename

/-- One entry of `UPLOAD_DIR.glob('*')`: its name, its `st_mtime` (seconds),
and whether it is a regular file. -/
structure DirEntry where
  name : String
  mtime : Int
  is_file : Bool
  deriving DecidableEq, Repr

/-- Seven days in seconds, `7 * 24 * 60 * 60` (app.py line 571). -/
def SEVEN_DAYS : Int := 7 * 24 * 60 * 60

/-- The loop of `cleanup_old_files`: for each directory entry in order,
unlink it (and count it) exactly when it is a regular file with
`st_mtime < cutoff`.  Returns the surviving entries and the deleted count. -/
def cleanup_scan (cutoff : Int) : List DirEntry → List DirEntry × Nat
  | [] => ([], 0)
  | e :: rest =>
    let r := cleanup_scan cutoff rest
    if e.is_file = true ∧ e.mtime < cutoff then (r.1, r.2 + 1)
    else (e :: r.1, r.2)

/-- Route handler `cleanup_old_files()` from app.py lines 566-587, with the clock
explicit: `now` is `time.time()` and the cutoff is `now` minus seven days.
Returns the directory after deletions and the JSON response. -/
def cleanup_old_files (now : Int) (dir : List DirEntry) :
    List DirEntry × HttpResult :=
  let cutoff := now - SEVEN_DAYS
  let r := cleanup_scan cutoff dir
  (r.1,
   { body := [("message", Json.str (toString r.2 ++ " old files deleted")),
              ("success", Json.bool true)],
     status := 200 })

/-! ### Helper lemmas -/

theorem isPrefixOf_self (l : List Char) : l.isPrefixOf l = true := by
  induction l with
  | nil => rfl
  | cons c t ih => simp [List.isPrefixOf, ih]

theorem isPrefixOf_append_self (l m : List Char) :
    l.isPrefixOf (l ++ m) = true := by
  induction l with
  | nil => cases m <;> rfl
  | cons c t ih => simp [List.isPrefixOf, ih]

theorem contains_sub_append_self (l m : List Char) :
    contains_sub l (m ++ l) = true := by
  induction m with
  | nil =>
    cases l with
    | nil => rfl
    | cons c t => simp [contains_sub, isPrefixOf_self]
  | cons c m ih => simp [contains_sub, ih]

theorem cleanup_scan_spec (cutoff : Int) (dir : List DirEntry) :
    cleanup_scan cutoff dir =
      (dir.filter (fun e => !(e.is_file && decide (e.mtime < cutoff))),
       dir.countP (fun e => e.is_file && decide (e.mtime < cutoff))) := by
  induction dir with
  | nil => rfl
  | cons e rest ih =>
    by_cases h : e.is_file = true ∧ e.mtime < cutoff
    · simp [cleanup_scan, ih, List.filter_cons, List.countP_cons, h.1, h.2]
    · rcases Decidable.not_and_iff_or_not.mp h with h1 | h1
      · simp [cleanup_scan, ih, List.filter_cons, List.countP_cons, h,
          Bool.eq_false_iff.mpr h1]
      · simp [cleanup_scan, ih, List.filter_cons, List.countP_cons, h, h1]

/-! ### Claims -/

/-- Claim C4: for every file in the output directory, POST /api/cleanup
deletes it exactly when it is a regular file with modification time strictly
earlier than now minus 7 days (`7*24*60*60` seconds); every other entry is
kept unchanged (in order), and the response reports the exact count of
deleted files with `success = true` and status 200. -/
theorem cleanup_deletes_exactly_old_files (now : Int) (dir : List DirEntry) :
    (cleanup_old_files now dir).1 =
      dir.filter
        (fun e => !(e.is_file && decide (e.mtime < now - 7 * 24 * 60 * 60))) ∧
    (cleanup_old_files now dir).2 =
      { body :=
          [("message",
            Json.str
              (toString
                  (dir.countP
                    (fun e =>
                      e.is_file && decide (e.mtime < now - 7 * 24 * 60 * 60)))
                ++ " old files deleted")),
           ("success", Json.bool true)],
        status := 200 } := by
  simp [cleanup_old_files, SEVEN_DAYS, cleanup_scan_spec]

/-- Claim C5: a download request whose filename contains `..`, `/` or `\`
is answered with HTTP 400 "Invalid filename" regardless of the filesystem
state (so before any filesystem access), and any request that is actually
served a file is served the file named by the request located directly
inside the upload directory, with a name free of `..`, `/` and `\`. -/
theorem download_rejects_path_traversal (filename : String) (fs : FS)
    (send_err : Option String)
    (h : py_in ".." filename = true ∨ py_in "/" filename = true ∨
      py_in "\\" filename = true) :
    download_pdf filename fs send_err =
      DownloadResult.json
        { body := [("error", Json.str "Invalid filename")], status := 400 } ∧
    (∀ (f : String) (fs2 : FS) (se : Option String) (d n : String),
      download_pdf f fs2 se = DownloadResult.file d n →
      d = UPLOAD_DIR ∧ n = f ∧ py_in ".." f = false ∧ py_in "/" f = false ∧
        py_in "\\" f = false) := by
  constructor
  · unfold download_pdf
    rcases h with h | h | h <;> simp [h]
  · intro f fs2 se d n hfile
    unfold download_pdf at hfile
    by_cases hc : (py_in ".." f || py_in "/" f || py_in "\\" f) = true
    · rw [if_pos hc] at hfile
      exact absurd hfile (by simp)
    · rw [if_neg hc] at hfile
      simp only [Bool.or_eq_true, not_or, Bool.not_eq_true] at hc
      by_cases he : (fs2 (UPLOAD_DIR ++ "/" ++ f)).isNone = true
      · rw [if_pos he] at hfile
        exact absurd hfile (by simp)
      · rw [if_neg he] at hfile
        cases se with
        | some e => exact absurd hfile (by simp)
        | none =>
          injection hfile with hd hn
          exact ⟨hd.symm, hn.symm, hc.1.1, hc.1.2, hc.2⟩

/-- Claim C5 witness: the filename `../secret` is rejected with 400 on an
empty filesystem. -/
theorem download_rejects_path_traversal_witness :
    download_pdf "../secret" (fun _ => none) none =
      DownloadResult.json
        { body := [("error", Json.str "Invalid filename")], status := 400 } :=
  (download_rejects_path_traversal "../secret" (fun _ => none) none
    (Or.inl (by decide))).1

/-- Claim C6: a download request whose filename passes the traversal check
but does not name an existing file in the upload directory is answered with
HTTP 404 and the JSON error body "File not found". -/
theorem download_missing_file_404 (filename : String) (fs : FS)
    (send_err : Option String)
    (h1 : py_in ".." filename = false) (h2 : py_in "/" filename = false)
    (h3 : py_in "\\" filename = false)
    (h4 : fs (UPLOAD_DIR ++ "/" ++ filename) = none) :
    download_pdf filename fs send_err =
      DownloadResult.json
        { body := [("error", Json.str "File not found")], status := 404 } := by
  unfold download_pdf
  simp [h1, h2, h3, h4]

/-- Claim C6 witness: downloading `missing.pdf` from an empty filesystem
yields the 404 response. -/
theorem download_missing_file_404_witness :
    download_pdf "missing.pdf" (fun _ => none) none =
      DownloadResult.json
        { body := [("error", Json.str "File not found")], status := 404 } :=
  download_missing_file_404 "missing.pdf" (fun _ => none) none
    (by decide) (by decide) (by decide) rfl

/-- Claim C1: for every request to POST /api/generate-pdf whose body passes
validation, and for which document generation does not raise
(`gen_raises = false`), the endpoint returns HTTP 200 with a JSON body
containing `success = true`, the generated filename `document-<ts>.pdf`, and
a downloadUrl of the form `/download/<filename>` — whatever the API key, the
external completion outcome, the pdfkit status and the initial filesystem. -/
theorem api_generate_pdf_success (data : ReqData) (ts : Nat)
    (api_key : String) (outcome : ApiOutcome) (pdfkit : PdfkitStatus)
    (io_raises : Bool) (render : ReqData → String → String)
    (total_time : Nat) (fs : FS)
    (hv : (validate_request data).1 = true) :
    (api_generate_pdf data ts api_key outcome pdfkit io_raises false render
        total_time fs).resp.status = 200 ∧
    body_get (api_generate_pdf data ts api_key outcome pdfkit io_raises false
        render total_time fs).resp.body "success" = some (Json.bool true) ∧
    body_get (api_generate_pdf data ts api_key outcome pdfkit io_raises false
        render total_time fs).resp.body "filename" =
      some (Json.str ("document-" ++ toString ts ++ ".pdf")) ∧
    body_get (api_generate_pdf data ts api_key outcome pdfkit io_raises false
        render total_time fs).resp.body "downloadUrl" =
      some (Json.str
        ("/download/" ++ ("document-" ++ toString ts ++ ".pdf"))) := by
  simp [api_generate_pdf, hv, generate_pdf, body_get, List.find?]

/-- Claim C1 witness: a concrete valid request (title "Report", timestamp 7)
gets a 200 with filename `document-7.pdf` and downloadUrl
`/download/document-7.pdf`. -/
theorem api_generate_pdf_success_witness :
    (api_generate_pdf { title := some "Report" } 7 "demo" (ApiOutcome.ok "")
        PdfkitStatus.unavailable false false (fun _ c => c) 0
        (fun _ => none)).resp.status = 200 ∧
    body_get (api_generate_pdf { title := some "Report" } 7 "demo"
        (ApiOutcome.ok "") PdfkitStatus.unavailable false false (fun _ c => c)
        0 (fun _ => none)).resp.body "success" = some (Json.bool true) ∧
    body_get (api_generate_pdf { title := some "Report" } 7 "demo"
        (ApiOutcome.ok "") PdfkitStatus.unavailable false false (fun _ c => c)
        0 (fun _ => none)).resp.body "filename" =
      some (Json.str ("document-" ++ toString 7 ++ ".pdf")) ∧
    body_get (api_generate_pdf { title := some "Report" } 7 "demo"
        (ApiOutcome.ok "") PdfkitStatus.unavailable false false (fun _ c => c)
        0 (fun _ => none)).resp.body "downloadUrl" =
      some (Json.str
        ("/download/" ++ ("document-" ++ toString 7 ++ ".pdf"))) :=
  api_generate_pdf_success { title := some "Report" } 7 "demo"
    (ApiOutcome.ok "") PdfkitStatus.unavailable false (fun _ c => c) 0
    (fun _ => none) (by decide)

/-- Claim C2: a request whose body lacks the required field — the required
set is exactly {title}, and a present-but-empty title counts as missing —
gets HTTP 400 with an error message naming the missing field, and the
filesystem is unchanged (no output file is produced).  The last conjunct
shows title is the only required field: a request with a well-formed title
and no pageCount passes validation whatever its remaining fields are. -/
theorem api_generate_pdf_missing_title (data : ReqData) (ts : Nat)
    (api_key : String) (outcome : ApiOutcome) (pdfkit : PdfkitStatus)
    (io_raises gen_raises : Bool) (render : ReqData → String → String)
    (total_time : Nat) (fs : FS)
    (h : data.title = none ∨ data.title = some "") :
    (api_generate_pdf data ts api_key outcome pdfkit io_raises gen_raises
        render total_time fs).resp =
      { body := [("error", Json.str "Missing required field: title")],
        status := 400 } ∧
    (api_generate_pdf data ts api_key outcome pdfkit io_raises gen_raises
        render total_time fs).fs = fs ∧
    (∀ (d2 : ReqData) (t : String), ¬ t = "" → 3 ≤ t.length →
      validate_request { d2 with title := some t, pageCount := none } =
        (true, "Valid")) := by
  have hv : validate_request data = (false, "Missing required field: title") := by
    rcases h with h | h <;> simp [validate_request, h]
  refine ⟨by simp [api_generate_pdf, hv], by simp [api_generate_pdf, hv], ?_⟩
  intro d2 t ht hlen
  simp [validate_request, ht, Nat.not_lt.mpr hlen]

/-- Claim C2 witness: the request with no title at all is rejected with 400
and the missing-title message, the filesystem is untouched, and a request
with only the title "Report" validates. -/
theorem api_generate_pdf_missing_title_witness :
    (api_generate_pdf { title := none } 3 "demo" (ApiOutcome.ok "")
        PdfkitStatus.unavailable false false (fun _ c => c) 0
        (fun _ => none)).resp =
      { body := [("error", Json.str "Missing required field: title")],
        status := 400 } ∧
    (api_generate_pdf { title := none } 3 "demo" (ApiOutcome.ok "")
        PdfkitStatus.unavailable false false (fun _ c => c) 0
        (fun _ => none)).fs = (fun _ => none) ∧
    (∀ (d2 : ReqData) (t : String), ¬ t = "" → 3 ≤ t.length →
      validate_request { d2 with title := some t, pageCount := none } =
        (true, "Valid")) :=
  api_generate_pdf_missing_title { title := none } 3 "demo"
    (ApiOutcome.ok "") PdfkitStatus.unavailable false false (fun _ c => c) 0
    (fun _ => none) (Or.inl rfl)

/-- Claim C3 counterexample: the request with an empty title and
pageCount = 100 has its pageCount outside [5, 50], yet the 400 response
carries the missing-title message, not the page-count message, so the
claim's asserted message is wrong for this request. -/
theorem page_count_message_counterexample :
    ((100 : Int) < 5 ∨ (100 : Int) > 50) ∧
    (api_generate_pdf { title := some "", pageCount := some 100 } 0 "demo"
        (ApiOutcome.ok "") PdfkitStatus.unavailable false false (fun _ c => c)
        0 (fun _ => none)).resp =
      { body := [("error", Json.str "Missing required field: title")],
        status := 400 } ∧
    ¬ ("Missing required field: title" =
        "Page count must be between 5 and 50") := by
  refine ⟨by decide, ?_, by decide⟩
  simp [api_generate_pdf, validate_request]

/-- Claim C3 (amended): a request whose pageCount is outside [5, 50] is
always answered with HTTP 400; when the title also passes its checks the
message is "Page count must be between 5 and 50".  An absent pageCount
defaults to 18 and never produces the page-count rejection, and the
boundary values 5 and 50 pass validation together with a well-formed
title. -/
theorem page_count_out_of_range_rejected (data : ReqData) (pc : Int)
    (hpc : data.pageCount = some pc) (hout : pc < 5 ∨ pc > 50) :
    (∀ (ts : Nat) (api_key : String) (outcome : ApiOutcome)
        (pdfkit : PdfkitStatus) (io_raises gen_raises : Bool)
        (render : ReqData → String → String) (total_time : Nat) (fs : FS),
      (api_generate_pdf data ts api_key outcome pdfkit io_raises gen_raises
          render total_time fs).resp.status = 400) ∧
    (∀ t : String, data.title = some t → ¬ t = "" → 3 ≤ t.length →
      validate_request data =
        (false, "Page count must be between 5 and 50")) ∧
    validate_request { data with pageCount := none } ≠
      (false, "Page count must be between 5 and 50") ∧
    (∀ (d2 : ReqData) (t : String), ¬ t = "" → 3 ≤ t.length →
      validate_request { d2 with title := some t, pageCount := some 5 } =
        (true, "Valid") ∧
      validate_request { d2 with title := some t, pageCount := some 50 } =
        (true, "Valid")) := by
  have hfalse : (validate_request data).1 = false := by
    cases htitle : data.title with
    | none => simp [validate_request, htitle]
    | some t =>
      by_cases h0 : t = ""
      · simp [validate_request, htitle, h0]
      · by_cases h3 : t.length < 3
        · simp [validate_request, htitle, h0, h3]
        · simp [validate_request, htitle, h0, h3, hpc, hout]
  refine ⟨?_, ?_, ?_, ?_⟩
  · intro ts api_key outcome pdfkit io_raises gen_raises render total_time fs
    simp [api_generate_pdf, hfalse]
  · intro t ht hne hlen
    simp [validate_request, ht, hne, Nat.not_lt.mpr hlen, hpc, hout]
  · cases htitle : data.title with
    | none => simp [validate_request, htitle]
    | some t =>
      by_cases h0 : t = ""
      · simp [validate_request, htitle, h0]
      · by_cases h3 : t.length < 3
        · simp [validate_request, htitle, h0, h3]
        · simp [validate_request, htitle, h0, h3]
  · intro d2 t hne hlen
    constructor <;> simp [validate_request, hne, Nat.not_lt.mpr hlen]

/-- Claim C3 (amended) witness: a valid-title request with pageCount 100 is
rejected with status 400 and the page-count message; pageCount 5 with the
same title validates. -/
theorem page_count_out_of_range_rejected_witness :
    (api_generate_pdf { title := some "Report", pageCount := some 100 } 0
        "demo" (ApiOutcome.ok "") PdfkitStatus.unavailable false false
        (fun _ c => c) 0 (fun _ => none)).resp.status = 400 ∧
    validate_request { title := some "Report", pageCount := some 100 } =
      (false, "Page count must be between 5 and 50") ∧
    validate_request { title := some "Report", pageCount := some 5 } =
      (true, "Valid") :=
  ⟨(page_count_out_of_range_rejected
      { title := some "Report", pageCount := some 100 } 100 rfl
      (by decide)).1 0 "demo" (ApiOutcome.ok "") PdfkitStatus.unavailable
      false false (fun _ c => c) 0 (fun _ => none),
   (page_count_out_of_range_rejected
      { title := some "Report", pageCount := some 100 } 100 rfl
      (by decide)).2.1 "Report" rfl (by decide) (by decide),
   ((page_count_out_of_range_rejected
      { title := some "Report", pageCount := some 100 } 100 rfl
      (by decide)).2.2.2 { title := some "Report" } "Report" (by decide)
      (by decide)).1⟩

/-- Claim C10 counterexample: the empty title has fewer than 3 characters,
yet the 400 response carries "Missing required field: title", not
"Title must be at least 3 characters", so the claim's asserted message is
wrong for this request. -/
theorem short_title_message_counterexample :
    (("" : String).length < 3) ∧
    (api_generate_pdf { title := some "" } 0 "demo" (ApiOutcome.ok "")
        PdfkitStatus.unavailable false false (fun _ c => c) 0
        (fun _ => none)).resp =
      { body := [("error", Json.str "Missing required field: title")],
        status := 400 } ∧
    ¬ ("Missing required field: title" =
        "Title must be at least 3 characters") := by
  refine ⟨by decide, ?_, by decide⟩
  simp [api_generate_pdf, validate_request]

/-- Claim C10 (amended): a request whose title is present, non-empty and
shorter than 3 characters is rejected with HTTP 400 and the message
"Title must be at least 3 characters". -/
theorem short_title_rejected (data : ReqData) (t : String) (ts : Nat)
    (api_key : String) (outcome : ApiOutcome) (pdfkit : PdfkitStatus)
    (io_raises gen_raises : Bool) (render : ReqData → String → String)
    (total_time : Nat) (fs : FS)
    (ht : data.title = some t) (hne : ¬ t = "") (hlen : t.length < 3) :
    validate_request data =
      (false, "Title must be at least 3 characters") ∧
    (api_generate_pdf data ts api_key outcome pdfkit io_raises gen_raises
        render total_time fs).resp =
      { body := [("error", Json.str "Title must be at least 3 characters")],
        status := 400 } := by
  have hv : validate_request data =
      (false, "Title must be at least 3 characters") := by
    simp [validate_request, ht, hne, hlen]
  exact ⟨hv, by simp [api_generate_pdf, hv]⟩

/-- Claim C10 (amended) witness: the two-character title "ab" is rejected
with 400 and the minimum-length message. -/
theorem short_title_rejected_witness :
    validate_request { title := some "ab" } =
      (false, "Title must be at least 3 characters") ∧
    (api_generate_pdf { title := some "ab" } 0 "demo" (ApiOutcome.ok "")
        PdfkitStatus.unavailable false false (fun _ c => c) 0
        (fun _ => none)).resp =
      { body := [("error", Json.str "Title must be at least 3 characters")],
        status := 400 } :=
  short_title_rejected { title := some "ab" } "ab" 0 "demo"
    (ApiOutcome.ok "") PdfkitStatus.unavailable false false (fun _ c => c) 0
    (fun _ => none) rfl (by decide) (by decide)

/-- Claim C7: when the external completions call raises and a real API key
is configured, `generate_content_with_ai` does not propagate the exception
but returns the fallback HTML: `<h2>Content</h2>` followed by one
`<h3>`/`<p>` pair per key point; and the generation endpoint still answers
200 on an otherwise valid request. -/
theorem ai_failure_returns_fallback (api_key title template : String)
    (points : List String) (language err : String)
    (hk : ¬ api_key = "demo") :
    generate_content_with_ai api_key title template points language
        (ApiOutcome.raised err) =
      "<h2>Content</h2>" ++
        String.intercalate "\n" (points.map (fun p =>
          "<h3>" ++ p ++ "</h3><p>Detailed content about " ++ p ++
            "...</p>")) ∧
    (points.map (fun p =>
        "<h3>" ++ p ++ "</h3><p>Detailed content about " ++ p ++
          "...</p>")).length = points.length ∧
    (∀ (data : ReqData) (ts : Nat) (pdfkit : PdfkitStatus)
        (io_raises : Bool) (render : ReqData → String → String)
        (total_time : Nat) (fs : FS),
      (validate_request data).1 = true →
      (api_generate_pdf data ts api_key (ApiOutcome.raised err) pdfkit
          io_raises false render total_time fs).resp.status = 200) := by
  refine ⟨by simp [generate_content_with_ai, hk], by simp, ?_⟩
  intro data ts pdfkit io_raises render total_time fs hv
  simp [api_generate_pdf, hv, generate_pdf]

/-- Claim C7 witness: with key "sk-real", an API failure on two key points
returns the two-pair fallback, and a valid AI request still gets a 200. -/
theorem ai_failure_returns_fallback_witness :
    generate_content_with_ai "sk-real" "T" "tech-report" ["a", "b"] "fr"
        (ApiOutcome.raised "boom") =
      "<h2>Content</h2>" ++
        String.intercalate "\n" (["a", "b"].map (fun p =>
          "<h3>" ++ p ++ "</h3><p>Detailed content about " ++ p ++
            "...</p>")) ∧
    (["a", "b"].map (fun p =>
        "<h3>" ++ p ++ "</h3><p>Detailed content about " ++ p ++
          "...</p>")).length = (["a", "b"] : List String).length ∧
    (api_generate_pdf { title := some "Report", useAI := some true } 9
        "sk-real" (ApiOutcome.raised "boom") PdfkitStatus.unavailable false
        false (fun _ c => c) 0 (fun _ => none)).resp.status = 200 :=
  ⟨(ai_failure_returns_fallback "sk-real" "T" "tech-report" ["a", "b"] "fr"
      "boom" (by decide)).1,
   (ai_failure_returns_fallback "sk-real" "T" "tech-report" ["a", "b"] "fr"
      "boom" (by decide)).2.1,
   (ai_failure_returns_fallback "sk-real" "T" "tech-report" ["a", "b"] "fr"
      "boom" (by decide)).2.2 { title := some "Report", useAI := some true }
      9 PdfkitStatus.unavailable false (fun _ c => c) 0 (fun _ => none)
      (by decide)⟩

/-- The marker written by the fallback branch always begins with
`PDF_EXPORT`. -/
theorem pdf_marker_starts_pdf_export (out hp : String) :
    str_starts (pdf_marker out hp) "PDF_EXPORT" = true := by
  unfold str_starts pdf_marker
  have h : ("PDF_EXPORT\n" ++ out ++ "\nHTML_SOURCE: " ++ hp).toList =
      "PDF_EXPORT".toList ++
        ('\n' :: (out.toList ++ ("\nHTML_SOURCE: " ++ hp).toList)) := by
    simp [String.toList, String.data_append]
  rw [h]
  exact isPrefixOf_append_self _ _

/-- The marker written by the fallback branch contains the HTML companion
path as a substring. -/
theorem pdf_marker_mentions_html_path (out hp : String) :
    py_in hp (pdf_marker out hp) = true := by
  unfold py_in pdf_marker
  have h : ("PDF_EXPORT\n" ++ out ++ "\nHTML_SOURCE: " ++ hp).toList =
      ("PDF_EXPORT\n" ++ out ++ "\nHTML_SOURCE: ").toList ++ hp.toList := by
    simp [String.toList, String.data_append]
  rw [h]
  exact contains_sub_append_self _ _

/-- Claim C8: when pdfkit is not importable (and the writes succeed),
`convert_html_to_pdf_simple` writes the full HTML to the companion path
obtained by replacing `.pdf` with `.html` in the output path, writes a
marker at the output path that begins with `PDF_EXPORT` and references the
HTML source path, and returns True. -/
theorem convert_fallback_writes_html_and_marker (html out : String) :
    convert_html_to_pdf_simple html out PdfkitStatus.unavailable false =
      { writes :=
          [(out.replace ".pdf" ".html", FileData.text html),
           (out,
            FileData.text (pdf_marker out (out.replace ".pdf" ".html")))],
        ret := true } ∧
    str_starts (pdf_marker out (out.replace ".pdf" ".html")) "PDF_EXPORT" =
      true ∧
    py_in (out.replace ".pdf" ".html")
        (pdf_marker out (out.replace ".pdf" ".html")) = true :=
  ⟨rfl, pdf_marker_starts_pdf_export out (out.replace ".pdf" ".html"),
   pdf_marker_mentions_html_path out (out.replace ".pdf" ".html")⟩

/-- Re-writing the same two paths changes which entries are present at no
path: the domain of the map is unchanged. -/
theorem fs_write_twice_isSome (g : FS) (p1 p2 : String)
    (a1 a2 b1 b2 : FileData) (q : String) :
    ((fs_write (fs_write (fs_write (fs_write g p1 a1) p2 b1) p1 a2) p2 b2)
        q).isSome =
      ((fs_write (fs_write g p1 a1) p2 b1) q).isSome := by
  simp only [fs_write]
  by_cases hq2 : q = p2
  · simp [hq2]
  · by_cases hq1 : q = p1
    · simp only [hq1, hq2]
      split <;> rfl
    · simp [hq1, hq2]

/-- Claim C9: every successful generation at whole-second timestamp `ts`
names its file exactly `document-<ts>.pdf`; two generations in the same
whole second therefore produce equal filenames, and the second run's writes
land on the paths of the first (the later write overwrites the earlier
file: the set of existing paths does not grow). -/
theorem filename_is_timestamp_and_collides (ts : Nat) (h1 h2 : String)
    (fs : FS) :
    (∀ (html : String) (pdfkit : PdfkitStatus) (io_raises : Bool) (fs2 : FS),
      (generate_pdf ts html pdfkit io_raises false fs2).info.map
          PdfInfo.filename =
        some ("document-" ++ toString ts ++ ".pdf")) ∧
    (generate_pdf ts h1 PdfkitStatus.unavailable false false fs).info.map
        PdfInfo.filename =
      (generate_pdf ts h2 PdfkitStatus.unavailable false false
          (generate_pdf ts h1 PdfkitStatus.unavailable false false
            fs).fs).info.map PdfInfo.filename ∧
    (generate_pdf ts h2 PdfkitStatus.unavailable false false
        (generate_pdf ts h1 PdfkitStatus.unavailable false false fs).fs).fs
        (UPLOAD_DIR ++ "/" ++ ("document-" ++ toString ts ++ ".pdf")) =
      some (FileData.text
        (pdf_marker
          (UPLOAD_DIR ++ "/" ++ ("document-" ++ toString ts ++ ".pdf"))
          ((UPLOAD_DIR ++ "/" ++ ("document-" ++ toString ts ++
            ".pdf")).replace ".pdf" ".html"))) ∧
    (∀ q : String,
      ((generate_pdf ts h2 PdfkitStatus.unavailable false false
          (generate_pdf ts h1 PdfkitStatus.unavailable false false
            fs).fs).fs q).isSome =
        ((generate_pdf ts h1 PdfkitStatus.unavailable false false
            fs).fs q).isSome) := by
  refine ⟨?_, ?_, ?_, ?_⟩
  · intro html pdfkit io_raises fs2
    simp [generate_pdf]
  · simp [generate_pdf]
  · simp [generate_pdf, convert_html_to_pdf_simple, fs_write_all, fs_write]
  · intro q
    exact fs_write_twice_isSome fs
      ((UPLOAD_DIR ++ "/" ++ ("document-" ++ toString ts ++
        ".pdf")).replace ".pdf" ".html")
      (UPLOAD_DIR ++ "/" ++ ("document-" ++ toString ts ++ ".pdf"))
      (FileData.text h1) (FileData.text h2)
      (FileData.text
        (pdf_marker (UPLOAD_DIR ++ "/" ++ ("document-" ++ toString ts ++
          ".pdf"))
          ((UPLOAD_DIR ++ "/" ++ ("document-" ++ toString ts ++
            ".pdf")).replace ".pdf" ".html")))
      (FileData.text
        (pdf_marker (UPLOAD_DIR ++ "/" ++ ("document-" ++ toString ts ++
          ".pdf"))
          ((UPLOAD_DIR ++ "/" ++ ("document-" ++ toString ts ++
            ".pdf")).replace ".pdf" ".html"))) q

end PdfApp
